import Mathlib

/-!
Shallow embedding of `src/homework.py`, a single-file polling bot that
queries the Yandex.Practicum homework-review API and relays
status-change notifications to a Telegram chat.

Python runtime values flowing through the script are modelled by
`PyValue`; raised exceptions by `PyError`; log output by `LogRecord`.
The external world (the HTTP outcome of one request, and whether the
Telegram transport fails) is passed in explicitly, so every embedded
function is a pure Lean function of those inputs, and one iteration of
the `while True` loop of `main` is the function `tick`.
-/

namespace HomeworkBot

/-- Python runtime values relevant to the script: `None`, ints, strings,
lists and dicts. Dicts are association lists; lookup takes the first
binding (the JSON objects the script consumes have distinct keys). -/
inductive PyValue where
  | none
  | int (n : Int)
  | str (s : String)
  | list (xs : List PyValue)
  | dict (fields : List (String × PyValue))
  deriving Repr

/-- Python exceptions raised or caught by the script. The constructors
`emptyResponseError`, `tokenError` and `responseToJSONError` stand for
the classes imported from the repository's `exceptions` module, which
is not under `src/`; modelled from the spec ("custom exception types"):
plain `Exception` subclasses carrying a message, so that `str(e)` is the
message, as for `TypeError` and `ValueError`. For `KeyError`, Python's
`str(e)` wraps the message in quotes; `errorText` below accounts for
that. -/
inductive PyError where
  | typeError (msg : String)
  | keyError (msg : String)
  | valueError (msg : String)
  | emptyResponseError (msg : String)
  | tokenError (msg : String)
  | responseToJSONError (msg : String)
  | genericError (msg : String)
  deriving Repr, DecidableEq

/-- Severity levels of the log records the script emits. -/
inductive LogLevel where
  | debug
  | error
  | critical
  deriving Repr, DecidableEq

/-- One record written through the module logger. -/
structure LogRecord where
  level : LogLevel
  message : String
  deriving Repr, DecidableEq

mutual

/-- Python `repr` of a `PyValue` (used by `str` for elements of
containers). -/
def pyRepr : PyValue → String
  | PyValue.none => "None"
  | PyValue.int n => toString n
  | PyValue.str s => "\x27" ++ s ++ "\x27"
  | PyValue.list xs => "[" ++ pyReprItems xs ++ "]"
  | PyValue.dict fs => "\x7b" ++ pyReprFields fs ++ "\x7d"

/-- Comma-separated `repr`s of list items. -/
def pyReprItems : List PyValue → String
  | [] => ""
  | [x] => pyRepr x
  | x :: y :: xs => pyRepr x ++ ", " ++ pyReprItems (y :: xs)

/-- Comma-separated `repr`s of dict entries. -/
def pyReprFields : List (String × PyValue) → String
  | [] => ""
  | [(k, v)] => "\x27" ++ k ++ "\x27: " ++ pyRepr v
  | (k, v) :: f :: fs =>
      "\x27" ++ k ++ "\x27: " ++ pyRepr v ++ ", " ++ pyReprFields (f :: fs)

end

/-- Python `str` of a `PyValue`, as interpolated into an f-string. -/
def pyStr (v : PyValue) : String :=
  match v with
  | PyValue.str s => s
  | other => pyRepr other

/-- Python `str(e)` for an exception `e`, as interpolated into the
`f'Сбой в работе программы: {error}'` f-string of `main`. `KeyError`
renders its message in quotes; every other class involved renders the
bare message. -/
def errorText : PyError → String
  | PyError.typeError m => m
  | PyError.keyError m => "\x27" ++ m ++ "\x27"
  | PyError.valueError m => m
  | PyError.emptyResponseError m => m
  | PyError.tokenError m => m
  | PyError.responseToJSONError m => m
  | PyError.genericError m => m

/-- Python subscript `v[k]` for a string key: a dict lookup that raises
`KeyError` on a missing key and `TypeError` on a non-dict. -/
def pyGetItem (v : PyValue) (k : String) : Except PyError PyValue :=
  match v with
  | PyValue.dict fields =>
    match fields.lookup k with
    | some x => Except.ok x
    | Option.none => Except.error (PyError.keyError k)
  | _ => Except.error (PyError.typeError "object is not subscriptable")

/-- RETRY_PERIOD = 600, the fixed sleep interval in seconds. -/
def RETRY_PERIOD : Nat := 600

/-- HOMEWORK_VERDICTS: the three known verdict codes and their display
sentences. -/
def HOMEWORK_VERDICTS : List (String × String) :=
  [("approved", "Работа проверена: ревьюеру всё понравилось. Ура!"),
   ("reviewing", "Работа взята на проверку ревьюером."),
   ("rejected", "Работа проверена: у ревьюера есть замечания.")]

/-- The three environment variables read at module load. `Option.none`
models an unset variable (`os.getenv` returning `None`). -/
structure Env where
  PRACTICUM_TOKEN : Option String
  TELEGRAM_TOKEN : Option String
  TELEGRAM_CHAT_ID : Option String
  deriving Repr, DecidableEq

/-- The message logged and raised by `check_tokens` when a credential is
missing. -/
def tokenErrorMessage : String := "Один из токенов или несколько не определены"

/-- check_tokens: raises `TokenError` (after a critical log record) when
any of the three credentials is `None`, and returns `True` otherwise.
The result pairs the emitted log records with the returned value or the
raised exception. -/
def check_tokens (env : Env) : List LogRecord × Except PyError Bool :=
  if env.PRACTICUM_TOKEN = Option.none ∨ env.TELEGRAM_TOKEN = Option.none
      ∨ env.TELEGRAM_CHAT_ID = Option.none then
    ([LogRecord.mk LogLevel.critical tokenErrorMessage],
     Except.error (PyError.tokenError tokenErrorMessage))
  else
    ([], Except.ok true)

/-- Pre-loop part of `main`: `check_tokens()` runs before the bot object
is built and before the polling loop is entered. A `TokenError` raised
there is caught nowhere in `main`, so it propagates out and terminates
the process: an `Except.error` result means the loop is never reached.
(The `if not check_tokens(): SystemExit` line of `main` is dead code,
since `check_tokens` either raises or returns `True`.) -/
def startup (env : Env) : List LogRecord × Except PyError Unit :=
  let (logs, r) := check_tokens env
  match r with
  | Except.error e => (logs, Except.error e)
  | Except.ok _ => (logs, Except.ok ())

/-- send_message: calls `bot.send_message(TELEGRAM_CHAT_ID, message)`,
logging success at debug severity and swallowing a `TelegramError`
(logging it at error severity). `telegramOutcome` is the external
transport behaviour for this call: `Option.none` means delivery
succeeds, `some err` means the client raises `TelegramError err`. The
result is the emitted log records; in either case nothing propagates to
the caller. -/
def send_message (telegramOutcome : Option String) (message : String) :
    List LogRecord :=
  match telegramOutcome with
  | Option.none => [LogRecord.mk LogLevel.debug "Сообщение успешно отправлено"]
  | some err =>
      [LogRecord.mk LogLevel.error ("Ошибка отправки сообщения: " ++ err)]

/-- Outcome of the one `requests.get` call of a tick, as decided by the
external world: either the request machinery raises a
`requests.RequestException`, or a response arrives with a status code
and a body whose `json()` either parses to a value or raises a decode
error (itself a `RequestException` subclass in `requests`). -/
inductive HttpOutcome where
  | requestException (msg : String)
  | response (status_code : Nat) (jsonResult : Except String PyValue)
  deriving Repr

/-- get_api_answer: performs the GET with `from_date = timestamp`.
A non-200 status code raises a generic `Exception` (not caught by the
`except requests.RequestException` clause, so it propagates to the
caller); a `RequestException` — transport failure or JSON decode
failure — is caught, logged at error severity, and the function falls
off its end, returning Python `None`. -/
def get_api_answer (timestamp : PyValue) (outcome : HttpOutcome) :
    List LogRecord × Except PyError PyValue :=
  match outcome with
  | HttpOutcome.requestException msg =>
      ([LogRecord.mk LogLevel.error
          ("Ошибка при запросе к API Яндекс.Практикум: " ++ msg)],
       Except.ok PyValue.none)
  | HttpOutcome.response code jsonResult =>
      if code ≠ 200 then
        ([], Except.error (PyError.genericError
          ("Сервер вернул ответ с кодом, отличным от 200: " ++ toString code)))
      else
        match jsonResult with
        | Except.ok v => ([], Except.ok v)
        | Except.error msg =>
            ([LogRecord.mk LogLevel.error
                ("Ошибка при запросе к API Яндекс.Практикум: " ++ msg)],
             Except.ok PyValue.none)

/-- check_response: requires the response to be a dict (else
`TypeError`), containing `homeworks` (else `EmptyResponseError`) and
`current_date` (else `EmptyResponseError`), with the `homeworks` value a
list (else `TypeError`); returns that list. -/
def check_response (response : PyValue) : Except PyError (List PyValue) :=
  match response with
  | PyValue.dict fields =>
    match fields.lookup "homeworks" with
    | Option.none =>
        Except.error (PyError.emptyResponseError
          "Ответ сервера не содержит ключ homeworks")
    | some hwv =>
      match fields.lookup "current_date" with
      | Option.none =>
          Except.error (PyError.emptyResponseError
            "Ответ сервера не содержит ключ current_date")
      | some _ =>
        match hwv with
        | PyValue.list hs => Except.ok hs
        | _ => Except.error (PyError.typeError
            "Значение с ключом homeworks не является списком")
  | _ => Except.error (PyError.typeError
      "Ответ сервера приходит не в виде словаря")

/-- The sentence `parse_status` renders: the fixed f-string template
interpolated with the homework name and the verdict sentence. -/
def statusMessage (homework_name : PyValue) (verdictText : String) : String :=
  "Изменился статус проверки работы \"" ++ pyStr homework_name ++ "\". "
    ++ verdictText

/-- parse_status: requires the keys `homework_name` and `status` (else
`KeyError`), requires the status value to be one of the three known
verdict codes (else `ValueError`; Python additionally raises `TypeError`
when the value is unhashable, i.e. a list or dict), and returns the
rendered template sentence. -/
def parse_status (homework : PyValue) : Except PyError String :=
  match homework with
  | PyValue.dict fields =>
    match fields.lookup "homework_name" with
    | Option.none =>
        Except.error (PyError.keyError "Ответ сервера не содержит ключ homework_name")
    | some homework_name =>
      match fields.lookup "status" with
      | Option.none =>
          Except.error (PyError.keyError "Ответ сервера не содержит ключ status")
      | some verdict =>
        match verdict with
        | PyValue.str v =>
          match HOMEWORK_VERDICTS.lookup v with
          | some verdictText => Except.ok (statusMessage homework_name verdictText)
          | Option.none =>
              Except.error (PyError.valueError
                ("Сервер передал некорректный или пустой статус: " ++ v))
        | PyValue.list _ =>
            Except.error (PyError.typeError "unhashable type: \x27list\x27")
        | PyValue.dict _ =>
            Except.error (PyError.typeError "unhashable type: \x27dict\x27")
        | other =>
            Except.error (PyError.valueError
              ("Сервер передал некорректный или пустой статус: " ++ pyStr other))
  | _ => Except.error (PyError.typeError "argument is not iterable")

/-- The `if homeworks: ... else ...` step of `main`: parse the first
homework when the list is non-empty, else the default status sentence. -/
def currentStatusOf (homeworks : List PyValue) : Except PyError String :=
  match homeworks with
  | [] => Except.ok "Статус отсутствует"
  | hw :: _ => parse_status hw

/-- The in-memory state of the polling loop: the `from_date` watermark
(any Python value, since `main` assigns `response[\x27current_date\x27]`
to it unchecked beyond key presence) and the last sent status message.
At startup `timestamp = int(time.time())` and `last_status = ""`. -/
structure PollState where
  timestamp : PyValue
  last_status : String
  deriving Repr

/-- External inputs of one tick: the HTTP outcome of its one request and
the Telegram transport behaviour for any send performed in the tick. -/
structure TickInput where
  http : HttpOutcome
  telegram : Option String
  deriving Repr

/-- Observable events of a tick, in order: messages passed to
`bot.send_message` and the sleep. -/
inductive Event where
  | send (message : String)
  | sleep (seconds : Nat)
  deriving Repr, DecidableEq

/-- Tail of a tick in which an exception reached the top-level
`except Exception as error` handler of `main`: the failure text is
logged at error severity and sent to the chat; the loop state is left
as it was at the point of the raise. `sentSoFar` and `logsSoFar` are
the messages and records the tick produced before the raise. -/
def handleTickError (telegram : Option String) (st : PollState)
    (sentSoFar : List String) (logsSoFar : List LogRecord) (e : PyError) :
    PollState × List String × List LogRecord :=
  let message := "Сбой в работе программы: " ++ errorText e
  (st, sentSoFar ++ [message],
   logsSoFar ++ [LogRecord.mk LogLevel.error message]
     ++ send_message telegram message)

/-- The try/except part of one iteration of the `while True` loop of
`main` (everything except the `finally` sleep): query, validate, parse
or default, compare to `last_status`, and on change send the message,
log it, update `last_status`, and advance `timestamp` to
`response[\x27current_date\x27]`. Returns the new state, the messages
passed to `bot.send_message` in order, and the log records. The inner
`except ResponseToJSONError` clause never fires, since `get_api_answer`
catches JSON decode failures itself. -/
def tick_try (input : TickInput) (st : PollState) :
    PollState × List String × List LogRecord :=
  let (apiLogs, apiResult) := get_api_answer st.timestamp input.http
  match apiResult with
  | Except.error e => handleTickError input.telegram st [] apiLogs e
  | Except.ok response =>
    match check_response response with
    | Except.error e => handleTickError input.telegram st [] apiLogs e
    | Except.ok homeworks =>
      match currentStatusOf homeworks with
      | Except.error e => handleTickError input.telegram st [] apiLogs e
      | Except.ok current_status =>
        if current_status ≠ st.last_status then
          let sendLogs := send_message input.telegram current_status
          let okLog := LogRecord.mk LogLevel.debug
            ("Сообщение успешно отправлено: " ++ current_status)
          match pyGetItem response "current_date" with
          | Except.ok cd =>
              (PollState.mk cd current_status, [current_status],
               apiLogs ++ sendLogs ++ [okLog])
          | Except.error e =>
              handleTickError input.telegram
                (PollState.mk st.timestamp current_status)
                [current_status] (apiLogs ++ sendLogs ++ [okLog]) e
        else
          (st, [], apiLogs)

/-- Results of one full loop iteration. `sent` lists the messages passed
to `bot.send_message`, in order; `events` is the observable trace. -/
structure TickResult where
  state : PollState
  sent : List String
  logs : List LogRecord
  events : List Event
  deriving Repr

/-- One full iteration of the `while True` loop of `main`: the
try/except body followed by the `finally: time.sleep(RETRY_PERIOD)`
cleanup, which runs whatever the body did. -/
def tick (input : TickInput) (st : PollState) : TickResult :=
  let (st2, sent, logs) := tick_try input st
  TickResult.mk st2 sent logs
    (sent.map Event.send ++ [Event.sleep RETRY_PERIOD])

/-- A homework entry as served by the API: a dict with the homework
name and the status code. -/
def homeworkDict (hn status : String) : PyValue :=
  PyValue.dict [("homework_name", PyValue.str hn),
                ("status", PyValue.str status)]

/-- A well-formed API response body: the homework list and the
`current_date` watermark. -/
def responseDict (hws : List PyValue) (cd : PyValue) : PyValue :=
  PyValue.dict [("homeworks", PyValue.list hws), ("current_date", cd)]

/-- Appending on the left is cancellable for strings. -/
theorem string_append_cancel_left (a b c : String) (h : a ++ b = a ++ c) :
    b = c := by
  have hd := congrArg String.data h
  simp only [String.data_append] at hd
  exact String.ext (List.append_cancel_left hd)

/-- The empty string is a right identity of append. -/
theorem string_append_empty (s : String) : s ++ "" = s := by
  apply String.ext
  simp [String.data_append]

/-- Two rendered status messages for the same homework name agree only
when their verdict sentences agree. -/
theorem statusMessage_inj (x : PyValue) (v w : String)
    (h : statusMessage x v = statusMessage x w) : v = w := by
  unfold statusMessage at h
  exact string_append_cancel_left _ _ _ h

/-- A tick whose response validates to `hws`, whose status message `msg`
differs from the stored one, and whose response carries `current_date`
value `cd`, sends exactly `msg` and moves the state to `(cd, msg)`. -/
theorem tick_good (resp : PyValue) (hws : List PyValue) (cd : PyValue)
    (tel : Option String) (st : PollState) (msg : String)
    (hcr : check_response resp = Except.ok hws)
    (hst : currentStatusOf hws = Except.ok msg)
    (hcd : pyGetItem resp "current_date" = Except.ok cd)
    (hne : msg ≠ st.last_status) :
    (tick (TickInput.mk (HttpOutcome.response 200 (Except.ok resp)) tel) st).state
        = PollState.mk cd msg ∧
    (tick (TickInput.mk (HttpOutcome.response 200 (Except.ok resp)) tel) st).sent
        = [msg] := by
  simp [tick, tick_try, get_api_answer, hcr, hst, hcd, hne]

/-- A tick whose response validates and whose status message equals the
stored one sends nothing and leaves the state unchanged. -/
theorem tick_nochange (resp : PyValue) (hws : List PyValue)
    (tel : Option String) (st : PollState)
    (hcr : check_response resp = Except.ok hws)
    (hst : currentStatusOf hws = Except.ok st.last_status) :
    (tick (TickInput.mk (HttpOutcome.response 200 (Except.ok resp)) tel) st).state
        = st ∧
    (tick (TickInput.mk (HttpOutcome.response 200 (Except.ok resp)) tel) st).sent
        = [] := by
  simp [tick, tick_try, get_api_answer, hcr, hst]

/-- A tick whose response fails validation sends exactly the top-level
failure message and leaves the state unchanged. -/
theorem tick_check_error (resp : PyValue) (tel : Option String)
    (st : PollState) (e : PyError)
    (hcr : check_response resp = Except.error e) :
    (tick (TickInput.mk (HttpOutcome.response 200 (Except.ok resp)) tel) st).state
        = st ∧
    (tick (TickInput.mk (HttpOutcome.response 200 (Except.ok resp)) tel) st).sent
        = ["Сбой в работе программы: " ++ errorText e] := by
  simp [tick, tick_try, get_api_answer, hcr, handleTickError]

/-- A tick whose response validates but whose first homework fails to
parse sends exactly the top-level failure message and leaves the state
unchanged. -/
theorem tick_status_error (resp : PyValue) (hws : List PyValue)
    (tel : Option String) (st : PollState) (e : PyError)
    (hcr : check_response resp = Except.ok hws)
    (hst : currentStatusOf hws = Except.error e) :
    (tick (TickInput.mk (HttpOutcome.response 200 (Except.ok resp)) tel) st).state
        = st ∧
    (tick (TickInput.mk (HttpOutcome.response 200 (Except.ok resp)) tel) st).sent
        = ["Сбой в работе программы: " ++ errorText e] := by
  simp [tick, tick_try, get_api_answer, hcr, hst, handleTickError]

/-- The observable trace of a tick is its sends, in order, followed by
the unconditional sleep contributed by the `finally` clause. -/
theorem tick_events (input : TickInput) (st : PollState) :
    (tick input st).events
      = (tick input st).sent.map Event.send ++ [Event.sleep RETRY_PERIOD] := rfl

/-- Claim C1: on two consecutive loop ticks where the first parses the
homework with status `reviewing` and the second parses the same
homework with status `rejected`, the second tick passes exactly one
message to `bot.send_message`, and that message contains the verdict
text associated with `rejected` in `HOMEWORK_VERDICTS`. -/
theorem claim1_reviewing_then_rejected_notifies_once (hn : String)
    (cd1 cd2 : PyValue) (tel1 tel2 : Option String) (st0 : PollState) :
    ∃ v pre post, HOMEWORK_VERDICTS.lookup "rejected" = some v ∧
      (tick
        (TickInput.mk (HttpOutcome.response 200
          (Except.ok (responseDict [homeworkDict hn "rejected"] cd2))) tel2)
        (tick
          (TickInput.mk (HttpOutcome.response 200
            (Except.ok (responseDict [homeworkDict hn "reviewing"] cd1))) tel1)
          st0).state).sent = [pre ++ v ++ post] := by
  have hm1 : currentStatusOf [homeworkDict hn "reviewing"]
      = Except.ok (statusMessage (PyValue.str hn)
          "Работа взята на проверку ревьюером.") := rfl
  have hm2 : currentStatusOf [homeworkDict hn "rejected"]
      = Except.ok (statusMessage (PyValue.str hn)
          "Работа проверена: у ревьюера есть замечания.") := rfl
  have hne : statusMessage (PyValue.str hn) "Работа проверена: у ревьюера есть замечания."
      ≠ statusMessage (PyValue.str hn) "Работа взята на проверку ревьюером." := by
    intro h
    have hvv := statusMessage_inj _ _ _ h
    exact absurd hvv (by decide)
  have hstate1 : (tick
      (TickInput.mk (HttpOutcome.response 200
        (Except.ok (responseDict [homeworkDict hn "reviewing"] cd1))) tel1)
      st0).state.last_status
      = statusMessage (PyValue.str hn) "Работа взята на проверку ревьюером." := by
    by_cases hc : statusMessage (PyValue.str hn)
        "Работа взята на проверку ревьюером." = st0.last_status
    · have h := tick_nochange (responseDict [homeworkDict hn "reviewing"] cd1)
        [homeworkDict hn "reviewing"] tel1 st0 rfl (by rw [hm1, hc])
      rw [h.1, ← hc]
    · have h := tick_good (responseDict [homeworkDict hn "reviewing"] cd1)
        [homeworkDict hn "reviewing"] cd1 tel1 st0 _ rfl hm1 rfl hc
      rw [h.1]
  have h2 := tick_good (responseDict [homeworkDict hn "rejected"] cd2)
    [homeworkDict hn "rejected"] cd2 tel2 _ _ rfl hm2 rfl
    (by rw [hstate1]; exact hne)
  refine ⟨"Работа проверена: у ревьюера есть замечания.",
    "Изменился статус проверки работы \"" ++ hn ++ "\". ", "", rfl, ?_⟩
  rw [h2.2]
  congr 1
  rw [string_append_empty]
  rfl

/-- Claim C2: a tick whose parsed status message equals the stored
last-status message passes no message to `bot.send_message` and leaves
the stored last-status message unchanged. -/
theorem claim2_unchanged_status_is_idempotent (resp : PyValue)
    (hws : List PyValue) (tel : Option String) (st : PollState)
    (hcr : check_response resp = Except.ok hws)
    (hst : currentStatusOf hws = Except.ok st.last_status) :
    (tick (TickInput.mk (HttpOutcome.response 200 (Except.ok resp)) tel) st).sent
        = [] ∧
    (tick (TickInput.mk (HttpOutcome.response 200 (Except.ok resp)) tel) st).state.last_status
        = st.last_status := by
  have h := tick_nochange resp hws tel st hcr hst
  exact ⟨h.2, by rw [h.1]⟩

/-- Witness for C2 at a concrete tick: empty homework list against a
stored default message. -/
theorem claim2_witness :
    (tick (TickInput.mk (HttpOutcome.response 200
        (Except.ok (responseDict [] (PyValue.int 5)))) Option.none)
      (PollState.mk (PyValue.int 0) "Статус отсутствует")).sent = [] ∧
    (tick (TickInput.mk (HttpOutcome.response 200
        (Except.ok (responseDict [] (PyValue.int 5)))) Option.none)
      (PollState.mk (PyValue.int 0) "Статус отсутствует")).state.last_status
        = "Статус отсутствует" :=
  claim2_unchanged_status_is_idempotent (responseDict [] (PyValue.int 5)) []
    Option.none (PollState.mk (PyValue.int 0) "Статус отсутствует") rfl rfl

/-- Claim C3: if any one of the three credentials is absent, `main`
fails fatally before the polling loop starts — `check_tokens` logs one
record at critical severity and raises `TokenError`, which propagates
out of `main` — and if all three are present the credential check
returns `True`. -/
theorem claim3_missing_credential_is_fatal (env : Env) :
    ((env.PRACTICUM_TOKEN = Option.none ∨ env.TELEGRAM_TOKEN = Option.none
        ∨ env.TELEGRAM_CHAT_ID = Option.none) →
      (startup env).2 = Except.error (PyError.tokenError tokenErrorMessage) ∧
      (startup env).1 = [LogRecord.mk LogLevel.critical tokenErrorMessage]) ∧
    ((env.PRACTICUM_TOKEN ≠ Option.none ∧ env.TELEGRAM_TOKEN ≠ Option.none
        ∧ env.TELEGRAM_CHAT_ID ≠ Option.none) →
      (check_tokens env).2 = Except.ok true) := by
  constructor
  · intro h
    unfold startup check_tokens
    rw [if_pos h]
    exact ⟨rfl, rfl⟩
  · rintro ⟨h1, h2, h3⟩
    simp [check_tokens, h1, h2, h3]

/-- Witness for C3: one environment with a missing token fails fatally;
one full environment passes the check. -/
theorem claim3_witness :
    (startup (Env.mk Option.none (some "t") (some "c"))).2
        = Except.error (PyError.tokenError tokenErrorMessage) ∧
    (check_tokens (Env.mk (some "p") (some "t") (some "c"))).2
        = Except.ok true :=
  ⟨((claim3_missing_credential_is_fatal
      (Env.mk Option.none (some "t") (some "c"))).1 (Or.inl rfl)).1,
   (claim3_missing_credential_is_fatal
      (Env.mk (some "p") (some "t") (some "c"))).2
     ⟨Option.some_ne_none _, Option.some_ne_none _, Option.some_ne_none _⟩⟩

/-- Claim C4: for every homework dict containing the keys
`homework_name` and `status` with status value `approved`,
`parse_status` returns exactly the fixed template sentence interpolated
with the homework name and the verdict text that `HOMEWORK_VERDICTS`
associates with `approved`. -/
theorem claim4_parse_status_approved (fields : List (String × PyValue))
    (hn : PyValue)
    (h1 : fields.lookup "homework_name" = some hn)
    (h2 : fields.lookup "status" = some (PyValue.str "approved")) :
    HOMEWORK_VERDICTS.lookup "approved"
        = some "Работа проверена: ревьюеру всё понравилось. Ура!" ∧
    parse_status (PyValue.dict fields)
        = Except.ok (statusMessage hn
            "Работа проверена: ревьюеру всё понравилось. Ура!") := by
  refine ⟨rfl, ?_⟩
  simp only [parse_status, h1, h2]
  rfl

/-- Witness for C4 at a concrete homework. -/
theorem claim4_witness :
    parse_status (homeworkDict "hw1" "approved")
        = Except.ok "Изменился статус проверки работы \"hw1\". Работа проверена: ревьюеру всё понравилось. Ура!" :=
  ((claim4_parse_status_approved
      [("homework_name", PyValue.str "hw1"), ("status", PyValue.str "approved")]
      (PyValue.str "hw1") rfl rfl).2).trans (by rfl)

/-- Counterexample to C5 as stated: at the concrete response dict
without a `homeworks` key, the tick raises the empty-response error but
does pass a message to `bot.send_message` — the top-level failure
notification — so the "no notification is sent during that tick" part
of the claim fails on the code. -/
theorem claim5_counterexample :
    check_response (PyValue.dict [("foo", PyValue.int 1)])
        = Except.error (PyError.emptyResponseError
            "Ответ сервера не содержит ключ homeworks") ∧
    (tick (TickInput.mk (HttpOutcome.response 200
        (Except.ok (PyValue.dict [("foo", PyValue.int 1)]))) Option.none)
      (PollState.mk (PyValue.int 0) "")).sent
      = ["Сбой в работе программы: Ответ сервера не содержит ключ homeworks"] ∧
    (["Сбой в работе программы: Ответ сервера не содержит ключ homeworks"] : List String)
      ≠ [] :=
  ⟨rfl, rfl, by simp⟩

/-- Claim C5 amended: for every API response dict without the key
`homeworks`, the tick raises the recoverable empty-response error; no
status notification is sent, but the top-level handler sends exactly
one error notification carrying the failure text; the loop state is
unchanged and the tick still ends with the sleep, so the loop continues
to the next tick. -/
theorem claim5_amended_no_homeworks_key (fields : List (String × PyValue))
    (tel : Option String) (st : PollState)
    (h : fields.lookup "homeworks" = Option.none) :
    check_response (PyValue.dict fields)
        = Except.error (PyError.emptyResponseError
            "Ответ сервера не содержит ключ homeworks") ∧
    (tick (TickInput.mk (HttpOutcome.response 200
        (Except.ok (PyValue.dict fields))) tel) st).sent
      = ["Сбой в работе программы: Ответ сервера не содержит ключ homeworks"] ∧
    (tick (TickInput.mk (HttpOutcome.response 200
        (Except.ok (PyValue.dict fields))) tel) st).state = st ∧
    (tick (TickInput.mk (HttpOutcome.response 200
        (Except.ok (PyValue.dict fields))) tel) st).events
      = [Event.send "Сбой в работе программы: Ответ сервера не содержит ключ homeworks",
         Event.sleep RETRY_PERIOD] := by
  have hcr : check_response (PyValue.dict fields)
      = Except.error (PyError.emptyResponseError
          "Ответ сервера не содержит ключ homeworks") := by
    simp only [check_response, h]
  have h2 := tick_check_error (PyValue.dict fields) tel st _ hcr
  refine ⟨hcr, h2.2, h2.1, ?_⟩
  rw [tick_events, h2.2]
  rfl

/-- Witness for the amended C5 at a concrete empty response dict. -/
theorem claim5_witness :
    check_response (PyValue.dict [])
        = Except.error (PyError.emptyResponseError
            "Ответ сервера не содержит ключ homeworks") ∧
    (tick (TickInput.mk (HttpOutcome.response 200
        (Except.ok (PyValue.dict []))) (some "down"))
      (PollState.mk (PyValue.int 2) "x")).sent
      = ["Сбой в работе программы: Ответ сервера не содержит ключ homeworks"] ∧
    (tick (TickInput.mk (HttpOutcome.response 200
        (Except.ok (PyValue.dict []))) (some "down"))
      (PollState.mk (PyValue.int 2) "x")).state = PollState.mk (PyValue.int 2) "x" ∧
    (tick (TickInput.mk (HttpOutcome.response 200
        (Except.ok (PyValue.dict []))) (some "down"))
      (PollState.mk (PyValue.int 2) "x")).events
      = [Event.send "Сбой в работе программы: Ответ сервера не содержит ключ homeworks",
         Event.sleep RETRY_PERIOD] :=
  claim5_amended_no_homeworks_key [] (some "down")
    (PollState.mk (PyValue.int 2) "x") rfl

/-- Counterexample to C6 as stated: at the concrete homework with the
unknown status `unknown`, `parse_status` raises the value error but the
tick does pass a message to `bot.send_message` — the top-level failure
notification — so the "no notification is sent during that tick" part
of the claim fails on the code. -/
theorem claim6_counterexample :
    parse_status (homeworkDict "hw1" "unknown")
        = Except.error (PyError.valueError
            "Сервер передал некорректный или пустой статус: unknown") ∧
    (tick (TickInput.mk (HttpOutcome.response 200
        (Except.ok (responseDict [homeworkDict "hw1" "unknown"] (PyValue.int 1))))
        Option.none)
      (PollState.mk (PyValue.int 0) "")).sent
      = ["Сбой в работе программы: Сервер передал некорректный или пустой статус: unknown"] ∧
    (["Сбой в работе программы: Сервер передал некорректный или пустой статус: unknown"] : List String)
      ≠ [] :=
  ⟨rfl, rfl, by simp⟩

/-- Claim C6 amended: for every homework dict containing
`homework_name` and whose `status` value is a string outside the three
known verdicts, `parse_status` raises a value error; no status
notification is sent, but the top-level handler sends exactly one error
notification carrying the failure text, and the loop state is
unchanged. -/
theorem claim6_amended_unknown_status (hwfields : List (String × PyValue))
    (x : PyValue) (v : String) (rest : List PyValue) (cd : PyValue)
    (tel : Option String) (st : PollState)
    (hname : hwfields.lookup "homework_name" = some x)
    (hstat : hwfields.lookup "status" = some (PyValue.str v))
    (hv : HOMEWORK_VERDICTS.lookup v = Option.none) :
    parse_status (PyValue.dict hwfields)
        = Except.error (PyError.valueError
            ("Сервер передал некорректный или пустой статус: " ++ v)) ∧
    (tick (TickInput.mk (HttpOutcome.response 200
        (Except.ok (responseDict (PyValue.dict hwfields :: rest) cd))) tel) st).sent
      = ["Сбой в работе программы: Сервер передал некорректный или пустой статус: " ++ v] ∧
    (tick (TickInput.mk (HttpOutcome.response 200
        (Except.ok (responseDict (PyValue.dict hwfields :: rest) cd))) tel) st).state
      = st := by
  have hps : parse_status (PyValue.dict hwfields)
      = Except.error (PyError.valueError
          ("Сервер передал некорректный или пустой статус: " ++ v)) := by
    simp only [parse_status, hname, hstat]
    rw [hv]
  have hst : currentStatusOf (PyValue.dict hwfields :: rest)
      = Except.error (PyError.valueError
          ("Сервер передал некорректный или пустой статус: " ++ v)) := hps
  have h2 := tick_status_error (responseDict (PyValue.dict hwfields :: rest) cd)
    (PyValue.dict hwfields :: rest) tel st _ rfl hst
  exact ⟨hps, h2.2, h2.1⟩

/-- Witness for the amended C6 at a concrete homework with status
`unknown`. -/
theorem claim6_witness :
    parse_status (PyValue.dict [("homework_name", PyValue.str "hw2"),
        ("status", PyValue.str "resubmitted")])
        = Except.error (PyError.valueError
            ("Сервер передал некорректный или пустой статус: " ++ "resubmitted")) ∧
    (tick (TickInput.mk (HttpOutcome.response 200
        (Except.ok (responseDict [PyValue.dict [("homework_name", PyValue.str "hw2"),
          ("status", PyValue.str "resubmitted")]] (PyValue.int 4)))) Option.none)
      (PollState.mk (PyValue.int 0) "")).sent
      = ["Сбой в работе программы: Сервер передал некорректный или пустой статус: " ++ "resubmitted"] ∧
    (tick (TickInput.mk (HttpOutcome.response 200
        (Except.ok (responseDict [PyValue.dict [("homework_name", PyValue.str "hw2"),
          ("status", PyValue.str "resubmitted")]] (PyValue.int 4)))) Option.none)
      (PollState.mk (PyValue.int 0) "")).state = PollState.mk (PyValue.int 0) "" :=
  claim6_amended_unknown_status
    [("homework_name", PyValue.str "hw2"), ("status", PyValue.str "resubmitted")]
    (PyValue.str "hw2") "resubmitted" [] (PyValue.int 4) Option.none
    (PollState.mk (PyValue.int 0) "") rfl rfl rfl

/-- Counterexample to C7 as stated: a tick that completes every step
(query, validation, parse, compare; nothing to notify since the status
is unchanged, and no error message is sent) does not advance the
watermark to the response current_date 99 — it stays 0. -/
theorem claim7_counterexample :
    (tick (TickInput.mk (HttpOutcome.response 200
        (Except.ok (responseDict [] (PyValue.int 99)))) Option.none)
      (PollState.mk (PyValue.int 0) "Статус отсутствует")).sent = [] ∧
    (tick (TickInput.mk (HttpOutcome.response 200
        (Except.ok (responseDict [] (PyValue.int 99)))) Option.none)
      (PollState.mk (PyValue.int 0) "Статус отсутствует")).state.timestamp
      = PyValue.int 0 ∧
    PyValue.int 0 ≠ PyValue.int 99 :=
  ⟨rfl, rfl, by simp⟩

/-- Claim C7 amended: on every loop iteration that completes its query,
validation, parse and compare steps and in which the status message
differs from the stored one (so a notification is sent), the watermark
is advanced to the response current_date, and the trace is that send
followed by the sleep — the advance happens before the sleep step. -/
theorem claim7_amended_watermark_on_change (resp : PyValue)
    (hws : List PyValue) (cd : PyValue) (tel : Option String)
    (st : PollState) (msg : String)
    (hcr : check_response resp = Except.ok hws)
    (hst : currentStatusOf hws = Except.ok msg)
    (hcd : pyGetItem resp "current_date" = Except.ok cd)
    (hne : msg ≠ st.last_status) :
    (tick (TickInput.mk (HttpOutcome.response 200 (Except.ok resp)) tel) st).state.timestamp
      = cd ∧
    (tick (TickInput.mk (HttpOutcome.response 200 (Except.ok resp)) tel) st).events
      = [Event.send msg, Event.sleep RETRY_PERIOD] := by
  have h := tick_good resp hws cd tel st msg hcr hst hcd hne
  refine ⟨by rw [h.1], ?_⟩
  rw [tick_events, h.2]
  rfl

/-- Witness for the amended C7 at a concrete changed-status tick. -/
theorem claim7_witness :
    (tick (TickInput.mk (HttpOutcome.response 200
        (Except.ok (responseDict [] (PyValue.int 99)))) Option.none)
      (PollState.mk (PyValue.int 0) "")).state.timestamp = PyValue.int 99 ∧
    (tick (TickInput.mk (HttpOutcome.response 200
        (Except.ok (responseDict [] (PyValue.int 99)))) Option.none)
      (PollState.mk (PyValue.int 0) "")).events
      = [Event.send "Статус отсутствует", Event.sleep RETRY_PERIOD] :=
  claim7_amended_watermark_on_change (responseDict [] (PyValue.int 99)) []
    (PyValue.int 99) Option.none (PollState.mk (PyValue.int 0) "")
    "Статус отсутствует" rfl rfl rfl (by decide)

/-- Claim C8: for every tick — whatever the HTTP outcome, the Telegram
transport behaviour and the loop state, and whether the body completed
or an exception was caught — the observable trace ends with the fixed
`RETRY_PERIOD` sleep, and nothing before it is a sleep: the loop never
proceeds towards the next tick without sleeping. -/
theorem claim8_sleep_runs_every_tick (input : TickInput) (st : PollState) :
    ∃ pre, (tick input st).events = pre ++ [Event.sleep RETRY_PERIOD]
      ∧ ∀ e ∈ pre, ∃ m, e = Event.send m := by
  refine ⟨(tick input st).sent.map Event.send, tick_events input st, ?_⟩
  intro e he
  simp only [List.mem_map] at he
  obtain ⟨m, _, rfl⟩ := he
  exact ⟨m, rfl⟩

/-- Claim C9: when the HTTP request raises a transport-level
`requests.RequestException`, `get_api_answer` logs the error at error
severity and returns Python `None` — an `Except.ok` value, not a raised
exception — so its caller receives `None` from that function. -/
theorem claim9_request_exception_yields_none (timestamp : PyValue)
    (msg : String) :
    get_api_answer timestamp (HttpOutcome.requestException msg)
      = ([LogRecord.mk LogLevel.error
            ("Ошибка при запросе к API Яндекс.Практикум: " ++ msg)],
         Except.ok PyValue.none) := rfl

/-- Claim C10: on the first loop tick (stored last-status is the initial
empty string), a validated response with an empty homework list yields
the default message, which differs from the empty string, so exactly
that default message is passed to `bot.send_message`. -/
theorem claim10_first_tick_empty_list_notifies_default (ts0 : PyValue)
    (cd : PyValue) (tel : Option String) (resp : PyValue)
    (hcr : check_response resp = Except.ok [])
    (hcd : pyGetItem resp "current_date" = Except.ok cd) :
    ("Статус отсутствует" : String) ≠ "" ∧
    (tick (TickInput.mk (HttpOutcome.response 200 (Except.ok resp)) tel)
        (PollState.mk ts0 "")).sent = ["Статус отсутствует"] := by
  refine ⟨by decide, ?_⟩
  exact (tick_good resp [] cd tel (PollState.mk ts0 "") "Статус отсутствует"
    hcr rfl hcd (by simp)).2

/-- Witness for C10 at a concrete first tick. -/
theorem claim10_witness :
    ("Статус отсутствует" : String) ≠ "" ∧
    (tick (TickInput.mk (HttpOutcome.response 200
        (Except.ok (responseDict [] (PyValue.int 7)))) Option.none)
      (PollState.mk (PyValue.int 3) "")).sent = ["Статус отсутствует"] :=
  claim10_first_tick_empty_list_notifies_default (PyValue.int 3) (PyValue.int 7)
    Option.none (responseDict [] (PyValue.int 7)) rfl rfl

end HomeworkBot
